import Mathlib

/-!
Verification of the output-path resolution logic of `src/app_streamlit.py`
(the `OutputLocator` of the specification).

The embedding mirrors the Python source:

* `_resolver_caminho` (lines 72-119)  →  `resolverCaminho`
* its four candidate-generating steps →  `reqCandidates`, `legacyCandidates`,
  `templateCandidates`, `globCandidates`
* the dedup-and-verify loop (111-117) →  `verifyLoop`
* the playlist entry loop of `download_playlist` (169-192) → `processEntries`

External facts modelled explicitly:

* The filesystem is a list of `(path, content)` pairs in directory-enumeration
  order; `os.path.exists` is membership of the path, `pathlib.Path.glob` yields
  matches in that enumeration order (CPython's `_WildcardSelector` iterates
  `scandir` results without sorting, and fnmatch-style `*id*` matching has no
  special case for leading dots).
* `ydl.prepare_filename(info)` is an external call that may raise; its outcome
  for the one metadata mapping of a resolution call is passed in as an
  `Except Unit String` value (`.error` models a raised exception, which the
  source catches with `try/except: pass`).
* `os.path.splitext` / `os.path.basename` are embedded faithfully, including
  splitext's rule that leading dots of the basename never start an extension.
-/

/-- Media kind selected by the user: the `download_type` string of the source,
`"video"` or `"audio"`. -/
inductive DownloadType where
  | video
  | audio
deriving DecidableEq, Repr

/-- One record of the metadata's `requested_downloads` list; only its
`filepath` key is consumed (absent or non-truthy values are `none`/`""`). -/
structure RequestedDownload where
  filepath : Option String
deriving DecidableEq, Repr

/-- The fields of the extractor's metadata mapping that the resolver consumes:
`requested_downloads`, `_filename` (here `filename`), `id`, `title`.  A `none`
field models an absent key, `some ""` a present but empty (falsy) value. -/
structure Info where
  requested_downloads : Option (List RequestedDownload)
  filename : Option String
  id : Option String
  title : Option String
deriving DecidableEq, Repr

/-- Filesystem state: the files that exist, as `(absolute path, content)`
pairs, listed in directory-enumeration (`scandir`) order. -/
structure FS where
  entries : List (String × String)
deriving DecidableEq, Repr

/-- The existing paths, in enumeration order. -/
def FS.paths (fs : FS) : List String :=
  fs.entries.map Prod.fst

/-- `os.path.exists fp` against this filesystem state. -/
def pathExists (fs : FS) (fp : String) : Bool :=
  fs.paths.contains fp

/-- `open(fp, "rb").read()`: the content stored for `fp`, when the file
exists. -/
def FS.readFile (fs : FS) (fp : String) : Option String :=
  (fs.entries.find? (fun e => e.1 == fp)).map Prod.snd

/-- Index of the last occurrence of `c` in `l`, if any. -/
def lastIdxOf (c : Char) : List Char → Option Nat
  | [] => none
  | x :: xs =>
    match lastIdxOf c xs with
    | some i => some (i + 1)
    | none => if x == c then some 0 else none

/-- The root part of `os.path.splitext p` on character lists: cut at the last
dot that lies after the last `/` and is preceded (within the basename) by at
least one non-dot character; otherwise the whole string. -/
def splitextBaseData (l : List Char) : List Char :=
  match lastIdxOf '.' l with
  | none => l
  | some dotIdx =>
    let fnameStart := match lastIdxOf '/' l with
      | some sepIdx => sepIdx + 1
      | none => 0
    if fnameStart ≤ dotIdx
        && ((l.drop fnameStart).take (dotIdx - fnameStart)).any (fun c => c != '.')
    then l.take dotIdx
    else l

/-- `os.path.splitext(p)[0]`. -/
def splitextBase (p : String) : String :=
  ⟨splitextBaseData p.data⟩

/-- `os.path.basename p`: everything after the last `/`. -/
def basename (p : String) : String :=
  ⟨(p.data.reverse.takeWhile (fun c => c != '/')).reverse⟩

/-- Boolean list-prefix test. -/
def isPrefixL : List Char → List Char → Bool
  | [], _ => true
  | _ :: _, [] => false
  | p :: ps, c :: cs => p == c && isPrefixL ps cs

/-- Boolean substring test: does `hay` contain `pat` as a contiguous run? -/
def containsSub : List Char → List Char → Bool
  | _, [] => true
  | [], _ :: _ => false
  | c :: cs, p :: ps => isPrefixL (p :: ps) (c :: cs) || containsSub cs (p :: ps)

/-- Strip `pre` from the front of `l`, if it is a prefix. -/
def dropPrefixL : List Char → List Char → Option (List Char)
  | [], l => some l
  | _ :: _, [] => none
  | p :: ps, c :: cs => if p == c then dropPrefixL ps cs else none

/-- Does path `p` name a direct child of `dir` whose name fnmatch-es the
pattern `*vid*`, i.e. contains `vid` as a substring?  This is the matching
performed by `output_dir.glob(f"*{video_id}*")` at source line 107. -/
def globNameMatch (dir vid p : String) : Bool :=
  match dropPrefixL (dir ++ "/").data p.data with
  | some name => !name.isEmpty && !name.contains '/' && containsSub name vid.data
  | none => false

/-- Step 1 (source lines 78-83): the truthy `filepath` of every
`requested_downloads` record, in record order. -/
def reqCandidates (info : Info) : List String :=
  match info.requested_downloads with
  | some rds => rds.filterMap (fun rd =>
      match rd.filepath with
      | some fp => if fp == "" then none else some fp
      | none => none)
  | none => []

/-- Step 2 (source lines 85-89): the legacy `_filename` field, when truthy. -/
def legacyCandidates (info : Info) : List String :=
  match info.filename with
  | some fp => if fp == "" then [] else [fp]
  | none => []

/-- The source's transcode condition `download_type == "audio" and HAS_FFMPEG`
(line 94): the `audioWasTranscoded` flag of the specification. -/
def audioWasTranscoded (dt : DownloadType) (hasFFmpeg : Bool) : Bool :=
  dt == .audio && hasFFmpeg

/-- Step 3 (source lines 91-102): the template-reconstructed path from
`ydl.prepare_filename`, with its extension replaced by `.mp3` when the audio
was transcoded; an exception (`.error`) contributes nothing. -/
def templateCandidates (prep : Except Unit String) (dt : DownloadType)
    (hasFFmpeg : Bool) : List String :=
  match prep with
  | .ok fp =>
    if audioWasTranscoded dt hasFFmpeg then [splitextBase fp ++ ".mp3"] else [fp]
  | .error _ => []

/-- Step 4 (source lines 104-108): every file of the target directory whose
name contains the item identifier, in enumeration order, when the metadata
carries a truthy `id`. -/
def globCandidates (info : Info) (outputDir : String) (fs : FS) : List String :=
  match info.id with
  | some vid =>
    if vid == "" then [] else fs.paths.filter (globNameMatch outputDir vid)
  | none => []

/-- The full candidate list, in the source's construction order. -/
def buildCandidates (info : Info) (prep : Except Unit String) (dt : DownloadType)
    (hasFFmpeg : Bool) (outputDir : String) (fs : FS) : List String :=
  reqCandidates info ++ legacyCandidates info
    ++ templateCandidates prep dt hasFFmpeg ++ globCandidates info outputDir fs

/-- The verification pass (source lines 110-119): walk the candidates with a
`seen` set, skip falsy or already-seen entries, and return the first candidate
that exists on disk. -/
def verifyLoop (fs : FS) : List String → List String → Option String
  | _, [] => none
  | seen, fp :: rest =>
    if fp == "" || seen.contains fp then verifyLoop fs seen rest
    else if pathExists fs fp then some fp
    else verifyLoop fs (fp :: seen) rest

/-- `_resolver_caminho(info, ydl, download_type, output_dir)` (source lines
72-119); `prep` is the outcome of the external `ydl.prepare_filename(info)`
call, and `none` is the source's `None` ("NotFound"). -/
def resolverCaminho (info : Info) (prep : Except Unit String) (dt : DownloadType)
    (hasFFmpeg : Bool) (outputDir : String) (fs : FS) : Option String :=
  verifyLoop fs [] (buildCandidates info prep dt hasFFmpeg outputDir fs)

/-- The acceptance test applied to one candidate: non-empty and existing. -/
def existsPred (fs : FS) (fp : String) : Bool :=
  fp != "" && pathExists fs fp

/-- One prepared playlist item of `download_playlist`. -/
structure ResultItem where
  title : String
  filename : String
  bytes : String
deriving DecidableEq, Repr

/-- The playlist entry loop of `download_playlist` (source lines 169-192):
skip `None` entries, resolve each remaining entry, skip it when resolution
fails or the path does not exist, otherwise collect title, basename and file
content.  `prepOf` is the external `ydl.prepare_filename` outcome for each
entry. -/
def processEntries (prepOf : Info → Except Unit String) (dt : DownloadType)
    (hasFFmpeg : Bool) (outputDir : String) (fs : FS) :
    List (Option Info) → List ResultItem
  | [] => []
  | none :: rest => processEntries prepOf dt hasFFmpeg outputDir fs rest
  | some entry :: rest =>
    let tail := processEntries prepOf dt hasFFmpeg outputDir fs rest
    match resolverCaminho entry (prepOf entry) dt hasFFmpeg outputDir fs with
    | none => tail
    | some fp =>
      if fp == "" || !pathExists fs fp then tail
      else
        { title := entry.title.getD "Sem título"
          filename := basename fp
          bytes := (fs.readFile fp).getD "" } :: tail

/-- Modelled from the spec: the candidate-name shape claimed for the
directory-search step, "identifier plus one extension component (a
single-segment glob anchored on the identifier)" — the name is exactly the
identifier followed by one dot and one non-empty, dot-free, slash-free
extension.  Stated only for comparison with `globNameMatch`. -/
def specAnchoredMatch (vid name : String) : Bool :=
  match dropPrefixL vid.data name.data with
  | some ('.' :: ext) => !ext.isEmpty && !ext.contains '.' && !ext.contains '/'
  | _ => false

/-! ### Helper lemmas -/

/-- The verification pass equals `find?` with the non-empty-and-existing test,
as long as every path in the `seen` accumulator is known not to exist (which
holds throughout the loop: a path is added to `seen` only after failing the
existence check). -/
theorem verifyLoop_eq_find (fs : FS) (l : List String) :
    ∀ seen : List String, (∀ s, seen.contains s = true → pathExists fs s = false) →
      verifyLoop fs seen l = l.find? (existsPred fs) := by
  induction l with
  | nil => intro seen _; rfl
  | cons fp rest ih =>
    intro seen hseen
    rw [List.find?_cons]
    cases hemp : (fp == "") with
    | true =>
      have hp : existsPred fs fp = false := by simp [existsPred, bne, hemp]
      simp only [verifyLoop, hemp, Bool.true_or, if_true, hp]
      exact ih seen hseen
    | false =>
      cases hsn : seen.contains fp with
      | true =>
        have hpe : pathExists fs fp = false := hseen fp hsn
        have hp : existsPred fs fp = false := by simp [existsPred, bne, hemp, hpe]
        simp only [verifyLoop, hemp, hsn, Bool.or_true, Bool.false_or, if_true, hp]
        exact ih seen hseen
      | false =>
        have hnmem : fp ∉ seen := by simpa using hsn
        cases hex : pathExists fs fp with
        | true =>
          have hp : existsPred fs fp = true := by simp [existsPred, bne, hemp, hex]
          simp [verifyLoop, hemp, hsn, hex, hp, hnmem]
        | false =>
          have hp : existsPred fs fp = false := by simp [existsPred, bne, hemp, hex]
          have hseen' : ∀ s, (fp :: seen).contains s = true → pathExists fs s = false := by
            intro s hs
            rw [List.contains_cons] at hs
            cases heq : (s == fp) with
            | true =>
              have hsf : s = fp := eq_of_beq heq
              rw [hsf]; exact hex
            | false =>
              rw [heq, Bool.false_or] at hs
              exact hseen s hs
          simp only [verifyLoop, hemp, hsn, Bool.or_false, if_false, hex, hp]
          simp [hnmem]
          exact ih (fp :: seen) hseen'

/-- The resolver is the first-match search over the full candidate list. -/
theorem resolver_eq_find (info : Info) (prep : Except Unit String) (dt : DownloadType)
    (ff : Bool) (dir : String) (fs : FS) :
    resolverCaminho info prep dt ff dir fs
      = (buildCandidates info prep dt ff dir fs).find? (existsPred fs) :=
  verifyLoop_eq_find fs _ [] (by intro s hs; simp at hs)

/-- A returned path passed the non-empty-and-existing test. -/
theorem resolver_some_pred {info : Info} {prep : Except Unit String}
    {dt : DownloadType} {ff : Bool} {dir : String} {fs : FS} {p : String}
    (h : resolverCaminho info prep dt ff dir fs = some p) :
    existsPred fs p = true := by
  rw [resolver_eq_find] at h
  exact List.find?_some h

/-! ### Claims -/

/-- Claim C1: for every metadata mapping, target directory, media kind and
transcode flag, the resolver builds its candidate list in the strict priority
order requested-output paths, legacy filename field, template-reconstructed
path (with the audio extension substituted when the audio was transcoded),
identifier-glob matches — and returns the first candidate in that order that
passes the filesystem existence check. -/
theorem c1_priority_order_first_existing (info : Info) (prep : Except Unit String)
    (dt : DownloadType) (ff : Bool) (dir : String) (fs : FS) :
    resolverCaminho info prep dt ff dir fs
      = (reqCandidates info ++ legacyCandidates info ++ templateCandidates prep dt ff
          ++ globCandidates info dir fs).find? (existsPred fs) :=
  resolver_eq_find info prep dt ff dir fs

/-- Claim C2: whenever the resolver returns a path rather than `none`, that
path passed the resolver's own existence check; it never returns an
unverified path. -/
theorem c2_returned_path_exists (info : Info) (prep : Except Unit String)
    (dt : DownloadType) (ff : Bool) (dir : String) (fs : FS) (p : String)
    (h : resolverCaminho info prep dt ff dir fs = some p) :
    pathExists fs p = true := by
  have hq := resolver_some_pred h
  unfold existsPred at hq
  rw [Bool.and_eq_true] at hq
  exact hq.2

def c2Fs : FS := ⟨[("downloads/a.mp4", "A")]⟩

def c2Info : Info := ⟨none, some "downloads/a.mp4", none, none⟩

/-- Witness for C2 at a concrete input. -/
theorem c2_returned_path_exists_witness : pathExists c2Fs "downloads/a.mp4" = true :=
  c2_returned_path_exists c2Info (.error ()) .video false "downloads" c2Fs
    "downloads/a.mp4" (by decide)

/-- Claim C3: when every generated candidate fails the existence check the
resolver returns `none` (the NotFound value); since `prep` ranges over
`.error` outcomes as well, a failure of the external template reconstruction
is absorbed and never propagates. -/
theorem c3_all_fail_returns_none (info : Info) (prep : Except Unit String)
    (dt : DownloadType) (ff : Bool) (dir : String) (fs : FS)
    (h : ∀ c ∈ buildCandidates info prep dt ff dir fs, pathExists fs c = false) :
    resolverCaminho info prep dt ff dir fs = none := by
  rw [resolver_eq_find, List.find?_eq_none]
  intro x hx
  simp [existsPred, h x hx]

def c3Fs : FS := ⟨[("downloads/other.mp4", "")]⟩

def c3Info : Info :=
  ⟨some [⟨some "downloads/gone.mp4"⟩], some "downloads/also-gone.webm", some "zzz", some "T"⟩

/-- Witness for C3: every candidate fails, the template call raised, and the
resolver returns `none`. -/
theorem c3_all_fail_returns_none_witness :
    resolverCaminho c3Info (.error ()) .audio true "downloads" c3Fs = none :=
  c3_all_fail_returns_none c3Info (.error ()) .audio true "downloads" c3Fs (by decide)

def c4Info : Info := ⟨none, none, some "abc", some "T"⟩

def c4Fs : FS := ⟨[("downloads/abc.webm", ""), ("downloads/abc.mp3", "")]⟩

/-- Claim C4 counterexample: with `audioWasTranscoded` true, both
`abc.mp3` and `abc.webm` present for identifier `abc`, and every
higher-priority candidate failing the existence check, the resolver returns
the `.webm` path — the glob step applies no preference for the fixed audio
extension, it simply keeps directory-enumeration order. -/
theorem c4_counterexample :
    audioWasTranscoded .audio true = true
      ∧ pathExists c4Fs "downloads/abc.mp3" = true
      ∧ pathExists c4Fs "downloads/abc.webm" = true
      ∧ reqCandidates c4Info = []
      ∧ legacyCandidates c4Info = []
      ∧ pathExists c4Fs "downloads/T [abc].mp3" = false
      ∧ resolverCaminho c4Info (.ok "downloads/T [abc].webm") .audio true "downloads" c4Fs
          = some "downloads/abc.webm" := by
  decide

/-- Claim C4 as amended: when no requested-output, legacy or
template-reconstructed candidate passes the existence check, the resolver
returns the first existing identifier-glob match in directory-enumeration
order; there is no extension preference for transcoded audio. -/
theorem c4_amended_first_glob_match (info : Info) (prep : Except Unit String)
    (dt : DownloadType) (ff : Bool) (dir : String) (fs : FS)
    (h : (reqCandidates info ++ legacyCandidates info
           ++ templateCandidates prep dt ff).find? (existsPred fs) = none) :
    resolverCaminho info prep dt ff dir fs
      = (globCandidates info dir fs).find? (existsPred fs) := by
  rw [resolver_eq_find]
  unfold buildCandidates
  rw [List.find?_append, h]
  rfl

def c4wInfo : Info := ⟨none, none, some "xyz", none⟩

def c4wFs : FS := ⟨[("downloads/xyz.mp3", ""), ("downloads/xyz.webm", "")]⟩

/-- Witness for the amended C4: here the `.mp3` file enumerates first, so it
is returned — as the first glob match, not as a preferred extension. -/
theorem c4_amended_first_glob_match_witness :
    resolverCaminho c4wInfo (.error ()) .audio true "downloads" c4wFs
        = (globCandidates c4wInfo "downloads" c4wFs).find? (existsPred c4wFs)
      ∧ (globCandidates c4wInfo "downloads" c4wFs).find? (existsPred c4wFs)
          = some "downloads/xyz.mp3" :=
  ⟨c4_amended_first_glob_match c4wInfo (.error ()) .audio true "downloads" c4wFs (by decide),
   by decide⟩

def c5Info : Info := ⟨none, none, some "abc123", none⟩

def c5Fs : FS := ⟨[("downloads/xabc123.mp4", "")]⟩

/-- Claim C5 counterexample: the directory-search step is an unanchored
`*id*` glob, not "identifier plus one extension component": the file
`xabc123.mp4` is not of the claimed anchored shape, yet the resolver adds it
as a candidate and returns it. -/
theorem c5_counterexample :
    resolverCaminho c5Info (.error ()) .video false "downloads" c5Fs
        = some "downloads/xabc123.mp4"
      ∧ specAnchoredMatch "abc123" "xabc123.mp4" = false := by
  decide

/-- Claim C5 as amended: the directory-search step adds exactly the files of
the target directory whose single-segment name contains the identifier as a
substring (the unanchored glob `*id*`), in enumeration order; the concrete
example `{id: "abc123"}` with `abc123.mp4` present still resolves to
`<targetDir>/abc123.mp4`. -/
theorem c5_amended_unanchored_glob (info : Info) (prep : Except Unit String)
    (dt : DownloadType) (ff : Bool) (dir : String) (fs : FS) (vid : String)
    (h1 : info.id = some vid) (h2 : (vid == "") = false)
    (h3 : (reqCandidates info ++ legacyCandidates info
            ++ templateCandidates prep dt ff).find? (existsPred fs) = none) :
    resolverCaminho info prep dt ff dir fs
      = (fs.paths.filter (globNameMatch dir vid)).find? (existsPred fs) := by
  rw [resolver_eq_find]
  unfold buildCandidates
  rw [List.find?_append, h3]
  show (globCandidates info dir fs).find? (existsPred fs) = _
  unfold globCandidates
  rw [h1]
  simp [h2]

def c5wInfo : Info := ⟨none, none, some "abc123", none⟩

def c5wFs : FS := ⟨[("downloads/abc123.mp4", "")]⟩

/-- Witness for the amended C5: the spec's own example input. -/
theorem c5_amended_unanchored_glob_witness :
    resolverCaminho c5wInfo (.error ()) .video false "downloads" c5wFs
        = (c5wFs.paths.filter (globNameMatch "downloads" "abc123")).find? (existsPred c5wFs)
      ∧ (c5wFs.paths.filter (globNameMatch "downloads" "abc123")).find? (existsPred c5wFs)
          = some "downloads/abc123.mp4" :=
  ⟨c5_amended_unanchored_glob c5wInfo (.error ()) .video false "downloads" c5wFs
      "abc123" rfl rfl (by decide),
   by decide⟩

def c6Info : Info := ⟨none, none, none, none⟩

/-- Claim C6 counterexample: metadata missing the identifier, the
requested-output records and the legacy filename simultaneously does not
trigger any hard failure — the resolver simply returns `none` (the NotFound
value). -/
theorem c6_counterexample :
    c6Info.requested_downloads = none ∧ c6Info.filename = none ∧ c6Info.id = none
      ∧ resolverCaminho c6Info (.ok "downloads/NA [NA].NA") .video false "downloads" ⟨[]⟩
          = none := by
  decide

/-- Claim C6 as amended: there is no MalformedMetadata failure path.  When
the metadata lacks identifier, requested-output records and legacy filename,
only the template-reconstruction candidate remains and the resolver returns
its verdict — the template path when it exists, otherwise the NotFound value
`none`; it never propagates a hard failure. -/
theorem c6_amended_no_hard_failure (info : Info) (prep : Except Unit String)
    (dt : DownloadType) (ff : Bool) (dir : String) (fs : FS)
    (h1 : info.requested_downloads = none) (h2 : info.filename = none)
    (h3 : info.id = none) :
    resolverCaminho info prep dt ff dir fs
      = (templateCandidates prep dt ff).find? (existsPred fs) := by
  rw [resolver_eq_find]
  unfold buildCandidates reqCandidates legacyCandidates globCandidates
  rw [h1, h2, h3]
  simp

def c6wFs : FS := ⟨[("downloads/NA [NA].mp3", "")]⟩

/-- Witness for the amended C6: all three fields missing, and the resolver's
result is exactly the template step's verdict. -/
theorem c6_amended_no_hard_failure_witness :
    resolverCaminho c6Info (.ok "downloads/NA [NA].NA") .audio true "downloads" c6wFs
        = (templateCandidates (.ok "downloads/NA [NA].NA") .audio true).find? (existsPred c6wFs)
      ∧ (templateCandidates (.ok "downloads/NA [NA].NA") .audio true).find? (existsPred c6wFs)
          = some "downloads/NA [NA].mp3" :=
  ⟨c6_amended_no_hard_failure c6Info (.ok "downloads/NA [NA].NA") .audio true "downloads" c6wFs
      rfl rfl rfl,
   by decide⟩

/-- Claim C7: when some requested-output record's declared path exists on
disk, the resolver returns the first such path, whatever the legacy,
template and glob candidates are. -/
theorem c7_requested_output_wins (info : Info) (prep : Except Unit String)
    (dt : DownloadType) (ff : Bool) (dir : String) (fs : FS) (p : String)
    (h : (reqCandidates info).find? (existsPred fs) = some p) :
    resolverCaminho info prep dt ff dir fs = some p := by
  rw [resolver_eq_find]
  unfold buildCandidates
  rw [List.find?_append, List.find?_append, List.find?_append, h]
  rfl

def c7Info : Info :=
  ⟨some [⟨some "downloads/miss.mp4"⟩, ⟨some "downloads/hit.mp4"⟩],
   some "downloads/decoy.mp4", some "decoy", none⟩

def c7Fs : FS := ⟨[("downloads/decoy.mp4", "D"), ("downloads/hit.mp4", "H")]⟩

/-- Witness for C7: the existing requested-output path wins over an existing
legacy filename, an existing template path and existing glob matches. -/
theorem c7_requested_output_wins_witness :
    resolverCaminho c7Info (.ok "downloads/decoy.mp4") .video false "downloads" c7Fs
      = some "downloads/hit.mp4" :=
  c7_requested_output_wins c7Info (.ok "downloads/decoy.mp4") .video false "downloads" c7Fs
    "downloads/hit.mp4" (by decide)

/-- Claim C8: in the playlist loop a `none` outcome for one entry does not
halt enumeration: with three entries whose middle entry resolves to `none`,
the caller still receives the prepared items for entries 1 and 3. -/
theorem c8_notfound_does_not_halt (prepOf : Info → Except Unit String)
    (dt : DownloadType) (ff : Bool) (dir : String) (fs : FS)
    (e1 e2 e3 : Info) (p1 p3 : String)
    (h1 : resolverCaminho e1 (prepOf e1) dt ff dir fs = some p1)
    (h2 : resolverCaminho e2 (prepOf e2) dt ff dir fs = none)
    (h3 : resolverCaminho e3 (prepOf e3) dt ff dir fs = some p3) :
    processEntries prepOf dt ff dir fs [some e1, some e2, some e3]
      = [{ title := e1.title.getD "Sem título", filename := basename p1,
           bytes := (fs.readFile p1).getD "" },
         { title := e3.title.getD "Sem título", filename := basename p3,
           bytes := (fs.readFile p3).getD "" }] := by
  have q1 := resolver_some_pred h1
  have q3 := resolver_some_pred h3
  unfold existsPred at q1 q3
  rw [Bool.and_eq_true] at q1 q3
  have q1e : (p1 == "") = false := beq_eq_false_iff_ne.mpr (bne_iff_ne.mp q1.1)
  have q3e : (p3 == "") = false := beq_eq_false_iff_ne.mpr (bne_iff_ne.mp q3.1)
  simp [processEntries, h1, h2, h3, q1e, q1.2, q3e, q3.2]

def c8E1 : Info := ⟨none, some "downloads/a.mp4", none, some "One"⟩

def c8E2 : Info := ⟨none, some "downloads/b.mp4", none, some "Two"⟩

def c8E3 : Info := ⟨none, some "downloads/c.mp4", none, none⟩

def c8Fs : FS := ⟨[("downloads/a.mp4", "A"), ("downloads/c.mp4", "C")]⟩

/-- Witness for C8: entry 2's only candidate is missing on disk, entries 1
and 3 are still prepared. -/
theorem c8_notfound_does_not_halt_witness :
    processEntries (fun _ => .error ()) .video false "downloads" c8Fs
        [some c8E1, some c8E2, some c8E3]
      = [{ title := "One", filename := "a.mp4", bytes := "A" },
         { title := "Sem título", filename := "c.mp4", bytes := "C" }] := by
  rw [c8_notfound_does_not_halt (fun _ => .error ()) .video false "downloads" c8Fs
      c8E1 c8E2 c8E3 "downloads/a.mp4" "downloads/c.mp4"
      (by decide) (by decide) (by decide)]
  decide

/-- Claim C9: the resolver is a deterministic function of the metadata, the
template-reconstruction outcome, the media kind, the transcode flag, the
target directory and the filesystem state: two calls on identical inputs and
an unchanged filesystem yield the same result. -/
theorem c9_deterministic (info : Info) (prep : Except Unit String)
    (dt : DownloadType) (ff : Bool) (dir : String) (fs : FS) :
    resolverCaminho info prep dt ff dir fs = resolverCaminho info prep dt ff dir fs :=
  rfl

/-- Claim C10: the verification pass skips empty and already-seen candidates:
a returned path is never the empty string, an extra requested-output record
with an empty declared path changes nothing, an empty legacy filename field
behaves exactly like an absent one, and a candidate already in the seen set
is passed over. -/
theorem c10_skips_empty_and_duplicates :
    (∀ (info : Info) (prep : Except Unit String) (dt : DownloadType) (ff : Bool)
        (dir : String) (fs : FS) (p : String),
        resolverCaminho info prep dt ff dir fs = some p → p ≠ "")
    ∧ (∀ (fs : FS) (seen : List String) (fp : String) (rest : List String),
        seen.contains fp = true →
        verifyLoop fs seen (fp :: rest) = verifyLoop fs seen rest)
    ∧ (∀ (info : Info) (rds : List RequestedDownload) (prep : Except Unit String)
        (dt : DownloadType) (ff : Bool) (dir : String) (fs : FS),
        info.requested_downloads = some rds →
        resolverCaminho { info with requested_downloads := some (⟨some ""⟩ :: rds) }
            prep dt ff dir fs
          = resolverCaminho info prep dt ff dir fs)
    ∧ (∀ (info : Info) (prep : Except Unit String) (dt : DownloadType) (ff : Bool)
        (dir : String) (fs : FS),
        resolverCaminho { info with filename := some "" } prep dt ff dir fs
          = resolverCaminho { info with filename := none } prep dt ff dir fs) := by
  refine ⟨?_, ?_, ?_, ?_⟩
  · intro info prep dt ff dir fs p h
    have hq := resolver_some_pred h
    unfold existsPred at hq
    rw [Bool.and_eq_true] at hq
    exact bne_iff_ne.mp hq.1
  · intro fs seen fp rest hc
    simp only [verifyLoop, hc, Bool.or_true, if_true]
  · intro info rds prep dt ff dir fs h
    simp [resolverCaminho, buildCandidates, reqCandidates, legacyCandidates,
      globCandidates, h]
  · intro info prep dt ff dir fs
    simp [resolverCaminho, buildCandidates, reqCandidates, legacyCandidates,
      globCandidates]

def c10Info : Info := ⟨some [⟨some "downloads/a.mp4"⟩], some "downloads/a.mp4", none, none⟩

/-- Witness for C10, instantiating each conjunct at a concrete input. -/
theorem c10_skips_empty_and_duplicates_witness :
    ("downloads/a.mp4" : String) ≠ ""
      ∧ verifyLoop c2Fs ["downloads/x.mp4"] ["downloads/x.mp4", "downloads/a.mp4"]
          = verifyLoop c2Fs ["downloads/x.mp4"] ["downloads/a.mp4"]
      ∧ resolverCaminho { c10Info with
            requested_downloads := some (⟨some ""⟩ :: [⟨some "downloads/a.mp4"⟩]) }
            (.error ()) .video false "downloads" c2Fs
          = resolverCaminho c10Info (.error ()) .video false "downloads" c2Fs
      ∧ resolverCaminho { c10Info with filename := some "" }
            (.error ()) .video false "downloads" c2Fs
          = resolverCaminho { c10Info with filename := none }
            (.error ()) .video false "downloads" c2Fs :=
  ⟨c10_skips_empty_and_duplicates.1 c10Info (.error ()) .video false "downloads" c2Fs
      "downloads/a.mp4" (by decide),
   c10_skips_empty_and_duplicates.2.1 c2Fs ["downloads/x.mp4"] "downloads/x.mp4"
      ["downloads/a.mp4"] (by decide),
   c10_skips_empty_and_duplicates.2.2.1 c10Info [⟨some "downloads/a.mp4"⟩]
      (.error ()) .video false "downloads" c2Fs rfl,
   c10_skips_empty_and_duplicates.2.2.2 c10Info (.error ()) .video false "downloads" c2Fs⟩
